import Mathlib

/-!
Verification development for the `juiced` EVSE controller (`juicelib`).

The definitions below are a shallow embedding of the Rust sources:
  * `src/juicelib/src/evse.rs` — the `state_machine!` table (`EVSEMachine`),
    `get_pilot_state`, `run_gfi_self_test`, `EVSEHardwareImpl::set_contactor`,
    and the `NoPower` arm of `do_state_transition`;
  * `src/juicelib/src/pilot.rs` — `Pilot::set_duty_cycle`;
  * `src/juicelib/src/peripherals.rs` — `GpioPeripherals::set_pilot_ampere`;
  * `src/juicelib/src/sensors.rs` — `SensorsState::add_cs_reading` and
    `SensorsState::add_mains_peak_reading`.

Modelling conventions: `f32`/`f64` voltages and duty cycles are embedded as
`ℚ` (every finite float is a rational, and all constants compared against are
exactly representable); `std::time::Instant` is embedded as a `Nat` tick;
fallible Rust functions returning `Result<_, HwError>` become
`Except HwError _`; GPIO input pins read at successive call sites are
embedded as a stream `Nat → Level` consumed left to right.
-/

/-- Logical level of a GPIO pin (mirrors `rppal::gpio::Level`). -/
inductive Level where
  | Low
  | High
deriving DecidableEq, Repr, Fintype

/-- Commanded pin state (mirrors `OnOff` in `evse.rs`). -/
inductive OnOff where
  | On
  | Off
deriving DecidableEq, Repr, Fintype

/-- Conversion `impl From<OnOff> for Level` in `evse.rs`. -/
def levelOfOnOff : OnOff → Level
  | OnOff.On => Level.High
  | OnOff.Off => Level.Low

/-- Hardware error kinds (mirrors `enum HwError` in `evse.rs`). -/
inductive HwError where
  | PoisonError
  | GpioError
  | HardwareFault
  | InternalFaultThreadError
deriving DecidableEq, Repr, Fintype

/-- States of the `state_machine!` table `EVSEMachine` in `evse.rs`. -/
inductive EVSEMachineState where
  | SelfTest
  | Standby
  | VehicleDetected
  | StartCharging
  | Charging
  | StopCharging
  | NoPower
  | VentilationNeeded
  | ResetableError
  | FailedStation
deriving DecidableEq, Repr, Fintype

/-- Inputs of the `state_machine!` table `EVSEMachine` in `evse.rs`. -/
inductive EVSEMachineInput where
  | SelfTestOk
  | SelfTestFailed
  | HardwareFault
  | PilotIs12V
  | PilotIs9V
  | PilotIs6V
  | PilotIs3V
  | PilotIsNegative12V
  | PilotInError
  | GFIInterrupted
  | NoGround
  | ChargingFinished
deriving DecidableEq, Repr, Fintype

/-- Outputs (the `[...]` labels) of the `state_machine!` table in `evse.rs`. -/
inductive EVSEMachineOutput where
  | SelfTestOk
  | SelfTestError
  | HardwareFault
  | NoTransition
  | ConsiderCharging
  | Illegal
  | GFIError
  | NoGroundError
  | VehicleDisconnected
  | OfferCharging
  | PilotMeasurement
  | ChargingFinished
  | NoPower
  | UnsupportedVehicle
deriving DecidableEq, Repr, Fintype

/-- The transition table generated by the `state_machine!` block in `evse.rs`
(lines 40–103), written cell by cell.  A `(state, input)` pair without an
entry in the table yields `none` (rust_fsm: `TransitionImpossible`). -/
def evseTransition :
    EVSEMachineState → EVSEMachineInput →
      Option (EVSEMachineState × Option EVSEMachineOutput)
  | EVSEMachineState.SelfTest, EVSEMachineInput.SelfTestOk =>
      some (EVSEMachineState.Standby, some EVSEMachineOutput.SelfTestOk)
  | EVSEMachineState.SelfTest, EVSEMachineInput.SelfTestFailed =>
      some (EVSEMachineState.FailedStation, some EVSEMachineOutput.SelfTestError)
  | EVSEMachineState.SelfTest, EVSEMachineInput.HardwareFault =>
      some (EVSEMachineState.FailedStation, some EVSEMachineOutput.HardwareFault)
  | EVSEMachineState.Standby, EVSEMachineInput.PilotIs12V =>
      some (EVSEMachineState.Standby, some EVSEMachineOutput.NoTransition)
  | EVSEMachineState.Standby, EVSEMachineInput.PilotIs9V =>
      some (EVSEMachineState.VehicleDetected, some EVSEMachineOutput.ConsiderCharging)
  | EVSEMachineState.Standby, EVSEMachineInput.PilotIs6V =>
      some (EVSEMachineState.ResetableError, some EVSEMachineOutput.Illegal)
  | EVSEMachineState.Standby, EVSEMachineInput.PilotIs3V =>
      some (EVSEMachineState.ResetableError, some EVSEMachineOutput.Illegal)
  | EVSEMachineState.Standby, EVSEMachineInput.GFIInterrupted =>
      some (EVSEMachineState.FailedStation, some EVSEMachineOutput.GFIError)
  | EVSEMachineState.Standby, EVSEMachineInput.NoGround =>
      some (EVSEMachineState.FailedStation, some EVSEMachineOutput.NoGroundError)
  | EVSEMachineState.Standby, EVSEMachineInput.HardwareFault =>
      some (EVSEMachineState.FailedStation, some EVSEMachineOutput.HardwareFault)
  | EVSEMachineState.Standby, EVSEMachineInput.PilotIsNegative12V =>
      some (EVSEMachineState.FailedStation, some EVSEMachineOutput.HardwareFault)
  | EVSEMachineState.VehicleDetected, EVSEMachineInput.PilotIs12V =>
      some (EVSEMachineState.Standby, some EVSEMachineOutput.VehicleDisconnected)
  | EVSEMachineState.VehicleDetected, EVSEMachineInput.PilotIs9V =>
      some (EVSEMachineState.VehicleDetected, some EVSEMachineOutput.NoTransition)
  | EVSEMachineState.VehicleDetected, EVSEMachineInput.PilotIs6V =>
      some (EVSEMachineState.StartCharging, some EVSEMachineOutput.OfferCharging)
  | EVSEMachineState.VehicleDetected, EVSEMachineInput.PilotIs3V =>
      some (EVSEMachineState.VentilationNeeded, none)
  | EVSEMachineState.VehicleDetected, EVSEMachineInput.PilotIsNegative12V =>
      some (EVSEMachineState.NoPower, none)
  | EVSEMachineState.VehicleDetected, EVSEMachineInput.PilotInError =>
      some (EVSEMachineState.ResetableError, some EVSEMachineOutput.PilotMeasurement)
  | EVSEMachineState.VehicleDetected, EVSEMachineInput.GFIInterrupted =>
      some (EVSEMachineState.FailedStation, some EVSEMachineOutput.GFIError)
  | EVSEMachineState.VehicleDetected, EVSEMachineInput.NoGround =>
      some (EVSEMachineState.FailedStation, some EVSEMachineOutput.NoGroundError)
  | EVSEMachineState.VehicleDetected, EVSEMachineInput.HardwareFault =>
      some (EVSEMachineState.FailedStation, some EVSEMachineOutput.HardwareFault)
  | EVSEMachineState.StartCharging, EVSEMachineInput.PilotInError =>
      some (EVSEMachineState.ResetableError, some EVSEMachineOutput.PilotMeasurement)
  | EVSEMachineState.StartCharging, EVSEMachineInput.GFIInterrupted =>
      some (EVSEMachineState.FailedStation, some EVSEMachineOutput.GFIError)
  | EVSEMachineState.StartCharging, EVSEMachineInput.NoGround =>
      some (EVSEMachineState.FailedStation, some EVSEMachineOutput.NoGroundError)
  | EVSEMachineState.StartCharging, EVSEMachineInput.HardwareFault =>
      some (EVSEMachineState.FailedStation, some EVSEMachineOutput.HardwareFault)
  | EVSEMachineState.StartCharging, EVSEMachineInput.SelfTestOk =>
      some (EVSEMachineState.Charging, some EVSEMachineOutput.NoTransition)
  | EVSEMachineState.StartCharging, EVSEMachineInput.SelfTestFailed =>
      some (EVSEMachineState.ResetableError, some EVSEMachineOutput.SelfTestError)
  | EVSEMachineState.Charging, EVSEMachineInput.PilotIs12V =>
      some (EVSEMachineState.StopCharging, some EVSEMachineOutput.VehicleDisconnected)
  | EVSEMachineState.Charging, EVSEMachineInput.PilotIs9V =>
      some (EVSEMachineState.StopCharging, some EVSEMachineOutput.ChargingFinished)
  | EVSEMachineState.Charging, EVSEMachineInput.PilotIs6V =>
      some (EVSEMachineState.Charging, some EVSEMachineOutput.NoTransition)
  | EVSEMachineState.Charging, EVSEMachineInput.PilotIs3V =>
      some (EVSEMachineState.VentilationNeeded, some EVSEMachineOutput.UnsupportedVehicle)
  | EVSEMachineState.Charging, EVSEMachineInput.PilotIsNegative12V =>
      some (EVSEMachineState.StopCharging, some EVSEMachineOutput.NoPower)
  | EVSEMachineState.Charging, EVSEMachineInput.PilotInError =>
      some (EVSEMachineState.StopCharging, some EVSEMachineOutput.PilotMeasurement)
  | EVSEMachineState.Charging, EVSEMachineInput.GFIInterrupted =>
      some (EVSEMachineState.FailedStation, some EVSEMachineOutput.GFIError)
  | EVSEMachineState.Charging, EVSEMachineInput.NoGround =>
      some (EVSEMachineState.FailedStation, some EVSEMachineOutput.NoGroundError)
  | EVSEMachineState.Charging, EVSEMachineInput.HardwareFault =>
      some (EVSEMachineState.FailedStation, some EVSEMachineOutput.HardwareFault)
  | EVSEMachineState.StopCharging, EVSEMachineInput.ChargingFinished =>
      some (EVSEMachineState.Standby, some EVSEMachineOutput.NoTransition)
  | EVSEMachineState.StopCharging, EVSEMachineInput.PilotInError =>
      some (EVSEMachineState.ResetableError, some EVSEMachineOutput.PilotMeasurement)
  | EVSEMachineState.StopCharging, EVSEMachineInput.GFIInterrupted =>
      some (EVSEMachineState.FailedStation, some EVSEMachineOutput.GFIError)
  | EVSEMachineState.StopCharging, EVSEMachineInput.NoGround =>
      some (EVSEMachineState.FailedStation, some EVSEMachineOutput.NoGroundError)
  | EVSEMachineState.StopCharging, EVSEMachineInput.HardwareFault =>
      some (EVSEMachineState.FailedStation, some EVSEMachineOutput.HardwareFault)
  | EVSEMachineState.NoPower, EVSEMachineInput.PilotIsNegative12V =>
      some (EVSEMachineState.NoPower, some EVSEMachineOutput.ChargingFinished)
  | EVSEMachineState.NoPower, EVSEMachineInput.HardwareFault =>
      some (EVSEMachineState.FailedStation, some EVSEMachineOutput.HardwareFault)
  | EVSEMachineState.ResetableError, EVSEMachineInput.PilotIs12V =>
      some (EVSEMachineState.Standby, none)
  | _, _ => none

/-- State component of `StateMachine::consume` from the `rust_fsm` runtime:
on a defined transition the machine moves to the target state; on an
undefined one `consume` returns `Err(TransitionImpossible)` and the state is
left unchanged. -/
def evse_consume (s : EVSEMachineState) (i : EVSEMachineInput) : EVSEMachineState :=
  match evseTransition s i with
  | some (s', _) => s'
  | none => s

/-- Embedding of `get_pilot_state` in `evse.rs` (lines 158–178).  Voltages
are embedded as `ℚ`; the constants compared against are exact.  The first
`if` is the oscillation check (note the source's condition is
`(vm12 > -11.0 && vm12 > -13.0) && vm12 < 0.0`, kept verbatim); an early
`return` in the source becomes the first branch of the chain. -/
def get_pilot_state (min_max : ℚ × ℚ) : EVSEMachineInput :=
  let vm12 := min_max.1
  let voltage := min_max.2
  if (vm12 > -11 ∧ vm12 > -13) ∧ vm12 < 0 then
    EVSEMachineInput.PilotInError
  else if 13 > voltage ∧ voltage > 11 then
    EVSEMachineInput.PilotIs12V
  else if 10 > voltage ∧ voltage > 8 then
    EVSEMachineInput.PilotIs9V
  else if 7 > voltage ∧ voltage > 5 then
    EVSEMachineInput.PilotIs6V
  else if 4 > voltage ∧ voltage > 2 then
    EVSEMachineInput.PilotIs3V
  else if -11 > voltage ∧ voltage > -13 then
    EVSEMachineInput.PilotIsNegative12V
  else
    EVSEMachineInput.PilotInError

/-- Relational presentation of the pilot classifier: each disjunct is one
branch region of `get_pilot_state`, guarded by the negations of all earlier
branch conditions, so the guards are pairwise disjoint by construction. -/
def PilotClass (min_max : ℚ × ℚ) (s : EVSEMachineInput) : Prop :=
  let vm12 := min_max.1
  let voltage := min_max.2
  ((vm12 > -11 ∧ vm12 > -13) ∧ vm12 < 0) ∧ s = EVSEMachineInput.PilotInError
  ∨ ¬((vm12 > -11 ∧ vm12 > -13) ∧ vm12 < 0) ∧ (13 > voltage ∧ voltage > 11)
      ∧ s = EVSEMachineInput.PilotIs12V
  ∨ ¬((vm12 > -11 ∧ vm12 > -13) ∧ vm12 < 0) ∧ ¬(13 > voltage ∧ voltage > 11)
      ∧ (10 > voltage ∧ voltage > 8) ∧ s = EVSEMachineInput.PilotIs9V
  ∨ ¬((vm12 > -11 ∧ vm12 > -13) ∧ vm12 < 0) ∧ ¬(13 > voltage ∧ voltage > 11)
      ∧ ¬(10 > voltage ∧ voltage > 8) ∧ (7 > voltage ∧ voltage > 5)
      ∧ s = EVSEMachineInput.PilotIs6V
  ∨ ¬((vm12 > -11 ∧ vm12 > -13) ∧ vm12 < 0) ∧ ¬(13 > voltage ∧ voltage > 11)
      ∧ ¬(10 > voltage ∧ voltage > 8) ∧ ¬(7 > voltage ∧ voltage > 5)
      ∧ (4 > voltage ∧ voltage > 2) ∧ s = EVSEMachineInput.PilotIs3V
  ∨ ¬((vm12 > -11 ∧ vm12 > -13) ∧ vm12 < 0) ∧ ¬(13 > voltage ∧ voltage > 11)
      ∧ ¬(10 > voltage ∧ voltage > 8) ∧ ¬(7 > voltage ∧ voltage > 5)
      ∧ ¬(4 > voltage ∧ voltage > 2) ∧ (-11 > voltage ∧ voltage > -13)
      ∧ s = EVSEMachineInput.PilotIsNegative12V
  ∨ ¬((vm12 > -11 ∧ vm12 > -13) ∧ vm12 < 0) ∧ ¬(13 > voltage ∧ voltage > 11)
      ∧ ¬(10 > voltage ∧ voltage > 8) ∧ ¬(7 > voltage ∧ voltage > 5)
      ∧ ¬(4 > voltage ∧ voltage > 2) ∧ ¬(-11 > voltage ∧ voltage > -13)
      ∧ s = EVSEMachineInput.PilotInError

/-- State of `Pilot` in `pilot.rs`: `pwmDutyCycle` is the duty cycle the
`rppal` PWM peripheral is actually driven at, `duty_cycle` the struct's
cached field.  `Pilot::new` creates the PWM with period 1 ms and pulse
width 1 ms (duty 1.0) and caches `duty_cycle: 1.0`. -/
structure Pilot where
  pwmDutyCycle : ℚ
  duty_cycle : ℚ
deriving DecidableEq, Repr

/-- Construction `Pilot::new` in `pilot.rs` (period 1 ms, pulse 1 ms). -/
def Pilot.new : Pilot :=
  { pwmDutyCycle := 1, duty_cycle := 1 }

/-- Embedding of `Pilot::set_duty_cycle` in `pilot.rs` (lines 45–53): if the
cached field already equals the argument, return unchanged; otherwise the
source calls `self.pwm.set_duty_cycle(0.)` — driving the hardware at duty
`0` — and then caches the requested value in `self.duty_cycle`. -/
def Pilot.set_duty_cycle (p : Pilot) (duty_cycle : ℚ) : Pilot :=
  if p.duty_cycle = duty_cycle then p
  else { pwmDutyCycle := 0, duty_cycle := duty_cycle }

/-- Embedding of `GpioPeripherals::set_pilot_ampere` in `peripherals.rs`
(lines 227–230): `duty_cycle = ampere / 0.6 / 100`. -/
def set_pilot_ampere (p : Pilot) (ampere : ℚ) : Pilot :=
  p.set_duty_cycle (ampere / (6 / 10) / 100)

/-- Slice of `EVSEHardwareImpl` relevant to `set_current_offer_ampere`:
the pilot peripheral plus the cached `current_offer` field. -/
structure CurrentOfferState where
  pilot : Pilot
  current_offer : ℚ
deriving DecidableEq, Repr

/-- Embedding of `EVSEHardwareImpl::set_current_offer_ampere` in `evse.rs`
(lines 416–420): forwards to `set_pilot_ampere`, then caches the offer. -/
def set_current_offer_ampere (s : CurrentOfferState) (ampere : ℚ) : CurrentOfferState :=
  { pilot := set_pilot_ampere s.pilot ampere, current_offer := ampere }

/-- A single timestamped reading (mirrors `SensorReading` in `sensors.rs`;
`Instant` is embedded as a `Nat` tick). -/
structure SensorReading where
  reading : ℚ
  timestamp : Nat
deriving DecidableEq, Repr

/-- The sensors store (mirrors `SensorsState` in `sensors.rs`). -/
structure SensorsState where
  current_sensor : List SensorReading
  mains_peak : List SensorReading
  last_update : Nat
deriving DecidableEq, Repr

/-- Capacity constant `SensorsState::MAX_READINGS` in `sensors.rs`. -/
def MAX_READINGS : Nat := 100

/-- Embedding of `SensorsState::add_cs_reading` (`sensors.rs` lines 61–67):
push the new reading, then `remove(0)` when the length exceeds
`MAX_READINGS`, then refresh `last_update`.  Both `Instant::now()` calls of
one insertion happen at the same model tick `now`. -/
def SensorsState.add_cs_reading (s : SensorsState) (now : Nat) (reading : ℚ) :
    SensorsState :=
  let cs := s.current_sensor ++ [{ reading := reading, timestamp := now }]
  let cs := if cs.length > MAX_READINGS then cs.eraseIdx 0 else cs
  { s with current_sensor := cs, last_update := now }

/-- Embedding of `SensorsState::add_mains_peak_reading` (`sensors.rs` lines
69–75), identical to `add_cs_reading` on the `mains_peak` sequence. -/
def SensorsState.add_mains_peak_reading (s : SensorsState) (now : Nat) (reading : ℚ) :
    SensorsState :=
  let mp := s.mains_peak ++ [{ reading := reading, timestamp := now }]
  let mp := if mp.length > MAX_READINGS then mp.eraseIdx 0 else mp
  { s with mains_peak := mp, last_update := now }

/-- One hardware operation issued by the facade (`EVSEHardwareImpl`) to the
peripherals: a command to the power-watchdog oscillation
(`GpioPeripherals::set_oscillate_watchdog`) or a write to the contactor pin
(`GpioPeripherals::set_contactor_pin`). -/
inductive FacadeOp where
  | oscillateWatchdog (oscillate : Bool)
  | contactorPin (level : Level)
deriving DecidableEq, Repr, Fintype

/-- Embedding of `EVSEHardwareImpl::set_contactor` (`evse.rs` lines
395–414) as the sequence of peripheral operations it performs plus its
result.  `wdOk` is an oracle for whether the `set_oscillate_watchdog` call
succeeds; a failed call performs no operation and aborts via `?` with the
`HardwareFault` context.  For `On` the source issues the watchdog command
before the contactor write; for `Off` it writes the contactor first and
stops the watchdog afterwards. -/
def set_contactor (wdOk : Bool) (state : OnOff) : List FacadeOp × Except HwError Unit :=
  let oscillate : Bool :=
    match state with
    | OnOff.On => true
    | OnOff.Off => false
  if oscillate ∧ ¬wdOk then
    ([], Except.error HwError.HardwareFault)
  else
    let pre : List FacadeOp := if oscillate then [FacadeOp.oscillateWatchdog oscillate] else []
    let mid := pre ++ [FacadeOp.contactorPin (levelOfOnOff state)]
    if ¬oscillate ∧ ¬wdOk then
      (mid, Except.error HwError.HardwareFault)
    else
      (mid ++ (if ¬oscillate then [FacadeOp.oscillateWatchdog oscillate] else []),
        Except.ok ())

/-- Observable plant state driven by the facade operations: the contactor
pin level and whether the power watchdog is oscillating. -/
structure PlantState where
  contactor : Level
  watchdogOscillating : Bool
deriving DecidableEq, Repr, Fintype

/-- Effect of one facade operation on the plant. -/
def applyFacadeOp (st : PlantState) : FacadeOp → PlantState
  | FacadeOp.oscillateWatchdog b => { st with watchdogOscillating := b }
  | FacadeOp.contactorPin l => { st with contactor := l }

/-- Safety predicate of §4.5.2: the plant never shows the contactor
energized while the watchdog is quiet. -/
def WatchdogSafe (st : PlantState) : Prop :=
  st.contactor = Level.High → st.watchdogOscillating = true

instance (st : PlantState) : Decidable (WatchdogSafe st) := by
  unfold WatchdogSafe; infer_instance

/-- Hardware state visible to `run_gfi_self_test` (`evse.rs`).  The GFI
status input pin is sampled at distinct instants; the successive values an
execution observes are the stream `gfiReads`, consumed at index `readIdx`
(one index per read call, including the read in the debug log line).  The
commanded output pins are recorded as fields. -/
structure GfiHwState where
  gfiReads : Nat → Level
  readIdx : Nat
  ground_test_pin : OnOff
  contactor : OnOff

/-- One read of the GFI status pin (`EVSEHardware::get_gfi_status_pin`). -/
def readGfiStatus (s : GfiHwState) : Level × GfiHwState :=
  (s.gfiReads s.readIdx, { s with readIdx := s.readIdx + 1 })

/-- Embedding of `EVSEHardware::reset_gfi_status_pin`, which calls
`GpioPeripherals::reset_gfi_status_pin` (`peripherals.rs` lines 241–249):
clear the interrupt state, then read the pin — `High` is an error (the
`PeripheralsError` is re-contexted to `HwError::HardwareFault` in
`evse.rs`), `Low` is ok. -/
def resetGfiStatusPin (s : GfiHwState) : Except HwError GfiHwState :=
  let (l, s') := readGfiStatus s
  match l with
  | Level.High => Except.error HwError.HardwareFault
  | Level.Low => Except.ok s'

/-- Embedding of `EVSEHardware::set_ground_test_pin` (pin write only). -/
def setGroundTestPin (st : OnOff) (s : GfiHwState) : GfiHwState :=
  { s with ground_test_pin := st }

/-- Contactor-off command as seen by the GFI hardware model (the watchdog
bookkeeping of `set_contactor` is modelled separately by `set_contactor`). -/
def setContactorOffGfi (s : GfiHwState) : GfiHwState :=
  { s with contactor := OnOff.Off }

/-- Embedding of `EVSEHardware::gfi_reset` / `GpioPeripherals::gfi_reset`:
a pulse on the GFI reset pin; it performs no read of the status pin. -/
def gfiResetPulse (s : GfiHwState) : GfiHwState := s

/-- Constant `GFI_TEST_CYCLES` in `evse.rs`. -/
def GFI_TEST_CYCLES : Nat := 10

/-- The synthetic-fault oscillation burst (`evse.rs` lines 122–127): `n`
iterations of ground-test pin On, half-cycle wait, Off, half-cycle wait. -/
def gfiTestBurst : Nat → GfiHwState → GfiHwState
  | 0, s => s
  | n + 1, s => gfiTestBurst n (setGroundTestPin OnOff.Off (setGroundTestPin OnOff.On s))

/-- Embedding of `run_gfi_self_test` (`evse.rs` lines 110–148).  The sleeps
are dropped (pin evolution across time is captured by the read stream); pin
writes that cannot fail are state updates.  Reads occur, in order, at
stream offsets 0 (`reset_gfi_status_pin`, line 116), 1 (the debug log line
117), 2 (the pre-burst check, line 118), 3 (the post-burst check, line
128), 4 (`reset_gfi_status_pin`, line 133), 5 and 6 (the post-reset checks,
lines 136 and 140) and 7 (`reset_gfi_status_pin`, line 144). -/
def run_gfi_self_test (s0 : GfiHwState) : Except HwError (EVSEMachineInput × GfiHwState) :=
  let s1 := setGroundTestPin OnOff.Off s0
  let s2 := setContactorOffGfi s1
  let s3 := gfiResetPulse s2
  match resetGfiStatusPin s3 with
  | Except.error e => Except.error e
  | Except.ok s4 =>
    let (_, s5) := readGfiStatus s4
    let (l1, s6) := readGfiStatus s5
    if l1 ≠ Level.Low then Except.error HwError.HardwareFault
    else
      let s7 := gfiTestBurst GFI_TEST_CYCLES s6
      let (l2, s8) := readGfiStatus s7
      if l2 = Level.Low then Except.error HwError.HardwareFault
      else
        let s9 := gfiResetPulse s8
        match resetGfiStatusPin s9 with
        | Except.error e => Except.error e
        | Except.ok s10 =>
          let (l3, s11) := readGfiStatus s10
          if l3 ≠ Level.Low then Except.error HwError.HardwareFault
          else
            let (l4, s12) := readGfiStatus s11
            if l4 ≠ Level.Low then Except.error HwError.HardwareFault
            else
              match resetGfiStatusPin s12 with
              | Except.error e => Except.error e
              | Except.ok s13 => Except.ok (EVSEMachineInput.SelfTestOk, s13)

/-- Facade state relevant to the `NoPower` arm of `do_state_transition`:
the commanded outputs plus the relay-mirror (relay test) input level. -/
structure NoPowerHwState where
  current_offer : ℚ
  contactor : OnOff
  ground_test_pin : OnOff
  relay_test_pin : Level
deriving DecidableEq, Repr

/-- Embedding of the `EVSEMachineState::NoPower` arm of
`do_state_transition` (`evse.rs` lines 497–502): advertise 0 A, contactor
Off, GFI-test pin Off, then `ensure!(relay_test_pin == High)` — a `Low`
mirror yields `Err(HwError::HardwareFault)`.  The arm sets no
`next_state_input`, so the ok result carries `none`. -/
def do_state_transition_no_power (hw : NoPowerHwState) :
    Except HwError (Option EVSEMachineInput) × NoPowerHwState :=
  let hw1 := { hw with current_offer := 0 }
  let hw2 := { hw1 with contactor := OnOff.Off }
  let hw3 := { hw2 with ground_test_pin := OnOff.Off }
  if hw3.relay_test_pin = Level.High then
    (Except.ok none, hw3)
  else
    (Except.error HwError.HardwareFault, hw3)

/-- Embedding of how `start_machine` (`evse.rs` lines 573–594) turns the
result of `do_state_transition` into the next machine input: an error
becomes `HardwareFault`; `Ok(Some i)` is fed as `i`; `Ok(None)` defers to
the channel input. -/
def stateInputOfTransitionResult (res : Except HwError (Option EVSEMachineInput))
    (channelInput : EVSEMachineInput) : EVSEMachineInput :=
  match res with
  | Except.error _ => EVSEMachineInput.HardwareFault
  | Except.ok (some i) => i
  | Except.ok none => channelInput

/-- C7: the `FailedStation` state is absorbing — for every input, the
transition table has no entry, so `consume` produces no transition and the
machine remains in `FailedStation`. -/
theorem failed_station_absorbing :
    ∀ i : EVSEMachineInput,
      evseTransition EVSEMachineState.FailedStation i = none ∧
      evse_consume EVSEMachineState.FailedStation i = EVSEMachineState.FailedStation := by
  decide

/-- C1, counterexample: in the non-absorbing, non-self-test state
`ResetableError`, the input `GFIInterrupted` has no table entry, so the
machine stays in `ResetableError` and does not reach `FailedStation` in one
transition (the same holds for `NoGround` and `HardwareFault` there, and
for `GFIInterrupted`/`NoGround` in `NoPower`). -/
theorem evse_fault_input_counterexample :
    evseTransition EVSEMachineState.ResetableError EVSEMachineInput.GFIInterrupted = none ∧
    evse_consume EVSEMachineState.ResetableError EVSEMachineInput.GFIInterrupted =
      EVSEMachineState.ResetableError ∧
    evse_consume EVSEMachineState.ResetableError EVSEMachineInput.GFIInterrupted ≠
      EVSEMachineState.FailedStation := by
  decide

/-- C1, amended: each of `GFIInterrupted`, `NoGround`, `HardwareFault`
drives the machine to `FailedStation` in one transition from `Standby`,
`VehicleDetected`, `StartCharging`, `Charging` and `StopCharging`; from
`NoPower` only `HardwareFault` does (the other two leave it in `NoPower`),
and from `ResetableError` none of the three does. -/
theorem evse_fault_input_amended (s : EVSEMachineState) (i : EVSEMachineInput)
    (hi : i = EVSEMachineInput.GFIInterrupted ∨ i = EVSEMachineInput.NoGround ∨
      i = EVSEMachineInput.HardwareFault) :
    (s = EVSEMachineState.Standby ∨ s = EVSEMachineState.VehicleDetected ∨
      s = EVSEMachineState.StartCharging ∨ s = EVSEMachineState.Charging ∨
      s = EVSEMachineState.StopCharging →
      evse_consume s i = EVSEMachineState.FailedStation) ∧
    (s = EVSEMachineState.NoPower →
      evse_consume s i =
        if i = EVSEMachineInput.HardwareFault then EVSEMachineState.FailedStation
        else EVSEMachineState.NoPower) ∧
    (s = EVSEMachineState.ResetableError →
      evse_consume s i = EVSEMachineState.ResetableError) := by
  rcases hi with rfl | rfl | rfl <;> cases s <;> decide

/-- C1, amended, witness at state `Charging` and input `GFIInterrupted`. -/
theorem evse_fault_input_amended_witness :
    (EVSEMachineInput.GFIInterrupted = EVSEMachineInput.GFIInterrupted ∨
      EVSEMachineInput.GFIInterrupted = EVSEMachineInput.NoGround ∨
      EVSEMachineInput.GFIInterrupted = EVSEMachineInput.HardwareFault) ∧
    evse_consume EVSEMachineState.Charging EVSEMachineInput.GFIInterrupted =
      EVSEMachineState.FailedStation :=
  ⟨Or.inl rfl,
    (evse_fault_input_amended EVSEMachineState.Charging EVSEMachineInput.GFIInterrupted
      (Or.inl rfl)).1 (by decide)⟩

/-- C5: the source's oscillation check `(vm12 > -11.0 && vm12 > -13.0) &&
vm12 < 0.0` has a dead second conjunct, so a pilot minimum of −14 V —
outside [−13, −11] and negative — is not rejected and the pair
(−14, 12) classifies as `PilotIs12V` instead of the `Error` the spec
requires (spec §4.2 and §9(a) identify the intended semantics). -/
theorem get_pilot_state_oscillation_bug :
    (-14 : ℚ) < -13 ∧ (-14 : ℚ) < 0 ∧
    get_pilot_state (-14, 12) = EVSEMachineInput.PilotIs12V ∧
    EVSEMachineInput.PilotIs12V ≠ EVSEMachineInput.PilotInError := by
  refine ⟨by norm_num, by norm_num, ?_, by decide⟩
  norm_num [get_pilot_state]

/-- C6, counterexample: with an in-range pilot minimum of −12 V, the window
endpoint v_max = 13 does not classify as `Plus12V`: the source compares
strictly (`13.0 > voltage && voltage > 11.0`), so (−12, 13) yields the
`Error` symbol. -/
theorem pilot_window_endpoint_counterexample :
    get_pilot_state (-12, 13) = EVSEMachineInput.PilotInError ∧
    get_pilot_state (-12, 13) ≠ EVSEMachineInput.PilotIs12V := by
  have h : get_pilot_state (-12, 13) = EVSEMachineInput.PilotInError := by
    norm_num [get_pilot_state]
  exact ⟨h, by rw [h]; decide⟩

/-- C6, amended: for every pair whose v_min passes the source's
oscillation check, v_max is classified by the open ±1 V windows —
(11, 13) → `Plus12V`, (8, 10) → `Plus9V`, (5, 7) → `Plus6V`,
(2, 4) → `Plus3V`, (−13, −11) → `Minus12V` (`PilotIsNegative12V`) — and
any v_max in none of the open windows, window endpoints included, yields
the `Error` symbol. -/
theorem pilot_windows_open_amended (mn mx : ℚ)
    (h : ¬((mn > -11 ∧ mn > -13) ∧ mn < 0)) :
    ((11 < mx ∧ mx < 13) → get_pilot_state (mn, mx) = EVSEMachineInput.PilotIs12V) ∧
    ((8 < mx ∧ mx < 10) → get_pilot_state (mn, mx) = EVSEMachineInput.PilotIs9V) ∧
    ((5 < mx ∧ mx < 7) → get_pilot_state (mn, mx) = EVSEMachineInput.PilotIs6V) ∧
    ((2 < mx ∧ mx < 4) → get_pilot_state (mn, mx) = EVSEMachineInput.PilotIs3V) ∧
    ((-13 < mx ∧ mx < -11) →
      get_pilot_state (mn, mx) = EVSEMachineInput.PilotIsNegative12V) ∧
    (¬(11 < mx ∧ mx < 13) → ¬(8 < mx ∧ mx < 10) → ¬(5 < mx ∧ mx < 7) →
      ¬(2 < mx ∧ mx < 4) → ¬(-13 < mx ∧ mx < -11) →
      get_pilot_state (mn, mx) = EVSEMachineInput.PilotInError) := by
  refine ⟨?_, ?_, ?_, ?_, ?_, ?_⟩
  · rintro ⟨hlo, hhi⟩
    simp only [get_pilot_state]
    rw [if_neg h, if_pos ⟨hhi, hlo⟩]
  · rintro ⟨hlo, hhi⟩
    simp only [get_pilot_state]
    rw [if_neg h, if_neg (by rintro ⟨a, b⟩; linarith), if_pos ⟨hhi, hlo⟩]
  · rintro ⟨hlo, hhi⟩
    simp only [get_pilot_state]
    rw [if_neg h, if_neg (by rintro ⟨a, b⟩; linarith),
      if_neg (by rintro ⟨a, b⟩; linarith), if_pos ⟨hhi, hlo⟩]
  · rintro ⟨hlo, hhi⟩
    simp only [get_pilot_state]
    rw [if_neg h, if_neg (by rintro ⟨a, b⟩; linarith),
      if_neg (by rintro ⟨a, b⟩; linarith), if_neg (by rintro ⟨a, b⟩; linarith),
      if_pos ⟨hhi, hlo⟩]
  · rintro ⟨hlo, hhi⟩
    simp only [get_pilot_state]
    rw [if_neg h, if_neg (by rintro ⟨a, b⟩; linarith),
      if_neg (by rintro ⟨a, b⟩; linarith), if_neg (by rintro ⟨a, b⟩; linarith),
      if_neg (by rintro ⟨a, b⟩; linarith), if_pos ⟨hhi, hlo⟩]
  · intro h1 h2 h3 h4 h5
    simp only [get_pilot_state]
    rw [if_neg h, if_neg (by rintro ⟨a, b⟩; exact h1 ⟨b, a⟩),
      if_neg (by rintro ⟨a, b⟩; exact h2 ⟨b, a⟩),
      if_neg (by rintro ⟨a, b⟩; exact h3 ⟨b, a⟩),
      if_neg (by rintro ⟨a, b⟩; exact h4 ⟨b, a⟩),
      if_neg (by rintro ⟨a, b⟩; exact h5 ⟨b, a⟩)]

/-- C6, amended, witness at (−12, 12). -/
theorem pilot_windows_open_amended_witness :
    ¬((((-12 : ℚ) > -11) ∧ ((-12 : ℚ) > -13)) ∧ (-12 : ℚ) < 0) ∧
    get_pilot_state (-12, 12) = EVSEMachineInput.PilotIs12V :=
  ⟨by norm_num,
    (pilot_windows_open_amended (-12) 12 (by norm_num)).1 (by norm_num)⟩

/-- Agreement of the relational classifier with `get_pilot_state`: a pair
is related to exactly the symbol the source function computes. -/
theorem PilotClass_iff (p : ℚ × ℚ) (s : EVSEMachineInput) :
    PilotClass p s ↔ s = get_pilot_state p := by
  obtain ⟨mn, mx⟩ := p
  by_cases h1 : (mn > -11 ∧ mn > -13) ∧ mn < 0
  · simp [PilotClass, get_pilot_state, h1]
  · by_cases h2 : (13 : ℚ) > mx ∧ mx > 11
    · simp [PilotClass, get_pilot_state, h1, h2]
    · by_cases h3 : (10 : ℚ) > mx ∧ mx > 8
      · simp [PilotClass, get_pilot_state, h1, h2, h3]
      · by_cases h4 : (7 : ℚ) > mx ∧ mx > 5
        · simp [PilotClass, get_pilot_state, h1, h2, h3, h4]
        · by_cases h5 : (4 : ℚ) > mx ∧ mx > 2
          · simp [PilotClass, get_pilot_state, h1, h2, h3, h4, h5]
          · by_cases h6 : (-11 : ℚ) > mx ∧ mx > -13
            · simp [PilotClass, get_pilot_state, h1, h2, h3, h4, h5, h6]
            · simp [PilotClass, get_pilot_state, h1, h2, h3, h4, h5, h6]

/-- C9: the pilot classifier is a total function — every (min, max) pair
(voltages embedded as rationals, which cover all finite floats) is related
to exactly one pilot symbol, and `get_pilot_state` computes it; in
particular no pair fails to classify and the function is defined by a
panic-free chain of comparisons. -/
theorem pilot_classifier_total (p : ℚ × ℚ) :
    (∃! s, PilotClass p s) ∧ PilotClass p (get_pilot_state p) :=
  ⟨⟨get_pilot_state p, (PilotClass_iff p _).mpr rfl,
      fun y hy => (PilotClass_iff p y).mp hy⟩,
    (PilotClass_iff p _).mpr rfl⟩

/-- C4: evaluating the advertisement path at 30 A from a fresh `Pilot`
(cached duty 1.0): the requested duty is 30 / 0.6 / 100 = 0.5, which
differs from the cached 1.0, yet `Pilot::set_duty_cycle` drives the PWM
hardware at duty 0 (`self.pwm.set_duty_cycle(0.)`) and only caches 0.5 —
contradicting the claim (and the repo's own `test_set_duty_cycle`). -/
theorem set_current_offer_ampere_bug :
    ((30 : ℚ) / (6 / 10) / 100 = 1 / 2) ∧ ((1 : ℚ) / 2 ≠ 1) ∧
    (set_current_offer_ampere ⟨Pilot.new, 0⟩ 30).pilot.duty_cycle = 1 / 2 ∧
    (set_current_offer_ampere ⟨Pilot.new, 0⟩ 30).pilot.pwmDutyCycle = 0 ∧
    ((0 : ℚ) ≠ 1 / 2) := by
  refine ⟨by norm_num, by norm_num, ?_, ?_, by norm_num⟩ <;>
    norm_num [set_current_offer_ampere, set_pilot_ampere, Pilot.set_duty_cycle, Pilot.new]

/-- C10: each insertion into the sensors store appends the new timestamped
reading at the end, evicts the oldest element exactly when the sequence
would exceed capacity 100, keeps the length at most 100, refreshes
`last_update`, and leaves the other sequence untouched. -/
theorem sensors_store_bounded_insert (s : SensorsState) (now : Nat) (r : ℚ)
    (hc : s.current_sensor.length ≤ 100) (hm : s.mains_peak.length ≤ 100) :
    ((s.add_cs_reading now r).current_sensor.length ≤ 100 ∧
      (s.current_sensor.length < 100 →
        (s.add_cs_reading now r).current_sensor =
          s.current_sensor ++ [⟨r, now⟩]) ∧
      (s.current_sensor.length = 100 →
        (s.add_cs_reading now r).current_sensor =
          s.current_sensor.tail ++ [⟨r, now⟩]) ∧
      (s.add_cs_reading now r).last_update = now ∧
      (s.add_cs_reading now r).mains_peak = s.mains_peak) ∧
    ((s.add_mains_peak_reading now r).mains_peak.length ≤ 100 ∧
      (s.mains_peak.length < 100 →
        (s.add_mains_peak_reading now r).mains_peak =
          s.mains_peak ++ [⟨r, now⟩]) ∧
      (s.mains_peak.length = 100 →
        (s.add_mains_peak_reading now r).mains_peak =
          s.mains_peak.tail ++ [⟨r, now⟩]) ∧
      (s.add_mains_peak_reading now r).last_update = now ∧
      (s.add_mains_peak_reading now r).current_sensor = s.current_sensor) := by
  constructor
  · refine ⟨?_, ?_, ?_, rfl, rfl⟩
    · simp only [SensorsState.add_cs_reading, MAX_READINGS]
      split_ifs with h1
      · have hlen : (s.current_sensor ++ [(⟨r, now⟩ : SensorReading)]).length =
            s.current_sensor.length + 1 := by simp
        have h0 : (0 : Nat) < (s.current_sensor ++ [(⟨r, now⟩ : SensorReading)]).length := by
          omega
        have := List.length_eraseIdx_add_one h0
        omega
      · have hlen : (s.current_sensor ++ [(⟨r, now⟩ : SensorReading)]).length =
            s.current_sensor.length + 1 := by simp
        omega
    · intro hlt
      simp only [SensorsState.add_cs_reading, MAX_READINGS]
      rw [if_neg (by simp only [List.length_append, List.length_cons, List.length_nil]; omega)]
    · intro heq
      simp only [SensorsState.add_cs_reading, MAX_READINGS]
      rw [if_pos (by simp only [List.length_append, List.length_cons, List.length_nil]; omega)]
      obtain ⟨a, t, hcs⟩ : ∃ a t, s.current_sensor = a :: t := by
        rcases hcs : s.current_sensor with _ | ⟨a, t⟩
        · rw [hcs] at heq; simp at heq
        · exact ⟨a, t, rfl⟩
      rw [hcs]
      simp [List.cons_append]
  · refine ⟨?_, ?_, ?_, rfl, rfl⟩
    · simp only [SensorsState.add_mains_peak_reading, MAX_READINGS]
      split_ifs with h1
      · have hlen : (s.mains_peak ++ [(⟨r, now⟩ : SensorReading)]).length =
            s.mains_peak.length + 1 := by simp
        have h0 : (0 : Nat) < (s.mains_peak ++ [(⟨r, now⟩ : SensorReading)]).length := by
          omega
        have := List.length_eraseIdx_add_one h0
        omega
      · have hlen : (s.mains_peak ++ [(⟨r, now⟩ : SensorReading)]).length =
            s.mains_peak.length + 1 := by simp
        omega
    · intro hlt
      simp only [SensorsState.add_mains_peak_reading, MAX_READINGS]
      rw [if_neg (by simp only [List.length_append, List.length_cons, List.length_nil]; omega)]
    · intro heq
      simp only [SensorsState.add_mains_peak_reading, MAX_READINGS]
      rw [if_pos (by simp only [List.length_append, List.length_cons, List.length_nil]; omega)]
      obtain ⟨a, t, hmp⟩ : ∃ a t, s.mains_peak = a :: t := by
        rcases hmp : s.mains_peak with _ | ⟨a, t⟩
        · rw [hmp] at heq; simp at heq
        · exact ⟨a, t, rfl⟩
      rw [hmp]
      simp [List.cons_append]

/-- C10, witness: inserting into an empty store. -/
theorem sensors_store_bounded_insert_witness :
    (([] : List SensorReading).length ≤ 100) ∧
    ((SensorsState.mk [] [] 0).add_cs_reading 5 7).current_sensor = [⟨7, 5⟩] ∧
    ((SensorsState.mk [] [] 0).add_cs_reading 5 7).last_update = 5 :=
  ⟨by decide,
    (sensors_store_bounded_insert ⟨[], [], 0⟩ 5 7 (by decide) (by decide)).1.2.1
      (by decide),
    (sensors_store_bounded_insert ⟨[], [], 0⟩ 5 7 (by decide) (by decide)).1.2.2.2.1⟩

/-- The oscillation burst never touches the GFI status read stream. -/
theorem gfiTestBurst_gfiReads (n : Nat) (s : GfiHwState) :
    (gfiTestBurst n s).gfiReads = s.gfiReads := by
  induction n generalizing s with
  | zero => rfl
  | succ n ih => simp [gfiTestBurst, setGroundTestPin, ih]

/-- The oscillation burst performs no read of the GFI status pin. -/
theorem gfiTestBurst_readIdx (n : Nat) (s : GfiHwState) :
    (gfiTestBurst n s).readIdx = s.readIdx := by
  induction n generalizing s with
  | zero => rfl
  | succ n ih => simp [gfiTestBurst, setGroundTestPin, ih]

/-- C3: `set_contactor` orders its hardware operations so that commanding
`On` starts the power-watchdog oscillation strictly before the contactor
pin write, and commanding `Off` writes the contactor pin strictly before
stopping the oscillation; consequently, replaying any prefix of the
operations of any call from any plant state satisfying the safety
predicate never exhibits contactor energized with the watchdog quiet. -/
theorem set_contactor_watchdog_ordering (wdOk : Bool) (st : PlantState) (n : Nat)
    (h : WatchdogSafe st) :
    (set_contactor true OnOff.On).1 =
      [FacadeOp.oscillateWatchdog true, FacadeOp.contactorPin Level.High] ∧
    (set_contactor true OnOff.Off).1 =
      [FacadeOp.contactorPin Level.Low, FacadeOp.oscillateWatchdog false] ∧
    (∀ state : OnOff,
      WatchdogSafe (((set_contactor wdOk state).1.take n).foldl applyFacadeOp st)) := by
  refine ⟨by decide, by decide, ?_⟩
  intro state
  have htr : (set_contactor wdOk state).1 =
      (match state, wdOk with
        | OnOff.On, true =>
            [FacadeOp.oscillateWatchdog true, FacadeOp.contactorPin Level.High]
        | OnOff.On, false => []
        | OnOff.Off, true =>
            [FacadeOp.contactorPin Level.Low, FacadeOp.oscillateWatchdog false]
        | OnOff.Off, false => [FacadeOp.contactorPin Level.Low]) := by
    cases state <;> cases wdOk <;> decide
  rw [htr]
  rcases n with _ | _ | n
  · cases state <;> cases wdOk <;>
      simp only [List.take_zero, List.foldl_nil] <;> exact h
  · cases state <;> cases wdOk <;> (revert st h; decide)
  · cases state <;> cases wdOk <;>
      simp only [List.take_succ_cons, List.take_nil] <;>
      (revert st h; decide)

/-- C3, witness: the `On` call from a de-energized quiet plant. -/
theorem set_contactor_watchdog_ordering_witness :
    WatchdogSafe ⟨Level.Low, false⟩ ∧
    (set_contactor true OnOff.On).1 =
      [FacadeOp.oscillateWatchdog true, FacadeOp.contactorPin Level.High] :=
  ⟨by decide,
    (set_contactor_watchdog_ordering true ⟨Level.Low, false⟩ 2 (by decide)).1⟩

/-- C2: the GFI self-test returns `SelfTestOk` only if the GFI status pin
reads Low before the synthetic-fault oscillation burst (stream offset 2),
High after the burst (offset 3) and Low again after the post-burst reset
(offset 5); whenever that Low/High/Low pattern is violated, it returns the
`HardwareFault` error instead. -/
theorem run_gfi_self_test_spec (r : Nat → Level) (g c : OnOff) :
    ((∃ s', run_gfi_self_test ⟨r, 0, g, c⟩ =
        Except.ok (EVSEMachineInput.SelfTestOk, s')) →
      r 2 = Level.Low ∧ r 3 = Level.High ∧ r 5 = Level.Low) ∧
    (¬(r 2 = Level.Low ∧ r 3 = Level.High ∧ r 5 = Level.Low) →
      run_gfi_self_test ⟨r, 0, g, c⟩ = Except.error HwError.HardwareFault) := by
  constructor
  · rintro ⟨s', hs'⟩
    rcases hr0 : r 0 with _ | _ <;> rcases hr2 : r 2 with _ | _ <;>
      rcases hr3 : r 3 with _ | _ <;> rcases hr4 : r 4 with _ | _ <;>
      rcases hr5 : r 5 with _ | _ <;>
      simp_all [run_gfi_self_test, resetGfiStatusPin, readGfiStatus,
        setGroundTestPin, setContactorOffGfi, gfiResetPulse,
        gfiTestBurst_gfiReads, gfiTestBurst_readIdx]
  · intro hbad
    rcases hr0 : r 0 with _ | _ <;> rcases hr2 : r 2 with _ | _ <;>
      rcases hr3 : r 3 with _ | _ <;> rcases hr4 : r 4 with _ | _ <;>
      rcases hr5 : r 5 with _ | _ <;>
      simp_all [run_gfi_self_test, resetGfiStatusPin, readGfiStatus,
        setGroundTestPin, setContactorOffGfi, gfiResetPulse,
        gfiTestBurst_gfiReads, gfiTestBurst_readIdx]

/-- C8: the `NoPower` transition action advertises 0 A, commands the
contactor and the GFI-test pin Off, and then requires the relay-mirror
input to read High; when the mirror reads Low the action returns the
`HardwareFault` error, which the main loop turns into the `HardwareFault`
input, and the table sends `NoPower` to `FailedStation` on that input. -/
theorem no_power_relay_mirror_fault (hw : NoPowerHwState)
    (h : hw.relay_test_pin = Level.Low) :
    (do_state_transition_no_power hw).2.current_offer = 0 ∧
    (do_state_transition_no_power hw).2.contactor = OnOff.Off ∧
    (do_state_transition_no_power hw).2.ground_test_pin = OnOff.Off ∧
    (do_state_transition_no_power hw).1 = Except.error HwError.HardwareFault ∧
    (∀ ci, stateInputOfTransitionResult (do_state_transition_no_power hw).1 ci =
      EVSEMachineInput.HardwareFault) ∧
    evse_consume EVSEMachineState.NoPower EVSEMachineInput.HardwareFault =
      EVSEMachineState.FailedStation := by
  refine ⟨?_, ?_, ?_, ?_, ?_, by decide⟩ <;>
    simp [do_state_transition_no_power, stateInputOfTransitionResult, h]

/-- C8, witness: a `NoPower` entry with the relay mirror reading Low. -/
theorem no_power_relay_mirror_fault_witness :
    (NoPowerHwState.mk 5 OnOff.On OnOff.On Level.Low).relay_test_pin = Level.Low ∧
    (do_state_transition_no_power ⟨5, OnOff.On, OnOff.On, Level.Low⟩).1 =
      Except.error HwError.HardwareFault :=
  ⟨rfl,
    (no_power_relay_mirror_fault ⟨5, OnOff.On, OnOff.On, Level.Low⟩ rfl).2.2.2.1⟩
